import Mathlib

/-!
Shallow embedding of the client-side task lifecycle controller and
conversation controller of the document-analysis web client
(`ChatbotPage`, current revision with prompt validation and inline
HTML reports).  The definitions mirror the source handlers
(`handleStartAnalysis`, the polling `useEffect`, `handleSendMessage`)
statement by statement; network effects are made explicit by
returning the list of issued requests and by taking the environment's
response as an argument.
-/

namespace ChatbotPage

/-- Backend base address (the `BACKEND_URL` constant in the source). -/
def BACKEND_URL : String := "http://localhost:5001"

/-- Frontend's internal state representation (`FrontendAnalysisStatus`). -/
inductive FrontendAnalysisStatus
  | idle | loading | success | error | processing
deriving DecidableEq, Repr

/-- Status values reported by the backend (`BackendTaskActualStatus`). -/
inductive BackendTaskActualStatus
  | pending | processing | completed | failed
deriving DecidableEq, Repr

/-- The JSON body of a successful `GET /api/analysis-status/{task_id}`
response (`TaskStatusResponse`).  Optional JSON fields are `Option`;
a field that is present but equal to `""` is `some ""`. -/
structure TaskStatusResponse where
  task_id : String
  status : BackendTaskActualStatus
  message : String
  html_url : Option String := none
  html_content : Option String := none
  error_details : Option String := none
deriving DecidableEq, Repr

/-- Whitespace as `String.prototype.trim` strips it (the ASCII white
space class; the source's inputs never contain the further Unicode
space characters JS also strips). -/
def isJsWhitespace (c : Char) : Bool :=
  c == ' ' || c == '\t' || c == '\n' || c == '\r' || c == '\x0b' || c == '\x0c'

/-- JS `String.prototype.trim`: drop leading and trailing whitespace. -/
def jsTrim (s : String) : String :=
  ⟨((s.data.dropWhile isJsWhitespace).reverse.dropWhile isJsWhitespace).reverse⟩

/-- JavaScript truthiness of an optional string field (`data.html_content`
is truthy iff the field is present and non-empty). -/
def strTruthy : Option String → Bool
  | none => false
  | some s => !(s == "")

/-- JavaScript `a || b` on strings: `b` when `a` is falsy (empty). -/
def jsOr (a b : String) : String := if a == "" then b else a

/-- JavaScript `a || b` where `a` is an optional string field
(`data.error_details || b`). -/
def jsOrOpt (a : Option String) (b : String) : String :=
  match a with
  | none => b
  | some s => jsOr s b

/-- The React state owned by the task lifecycle controller, plus a
`polling` flag recording whether the poll interval is live
(`setInterval` running, not yet `clearInterval`ed / torn down). -/
structure ControllerState where
  analysisStatus : FrontendAnalysisStatus
  taskId : Option String
  analysisResultUrl : Option String
  htmlReportContent : Option String
  statusMessage : String
  errorMessage : Option String
  polling : Bool
deriving DecidableEq, Repr

/-- Outcome of one `fetch` of the status endpoint, as the poll cycle
observes it: a parsed 2xx body, a non-ok HTTP status together with the
parsed body's `error` field, or a thrown network/parse error whose
`Error.message` is carried. -/
inductive PollOutcome
  | ok (data : TaskStatusResponse)
  | httpError (status : Nat) (errorField : Option String)
  | networkError (msg : String)
deriving DecidableEq, Repr

/-- The message of the `Error` thrown on a 404 status response:
`` `任务ID ${taskId} 未找到。可能已过期或后端服务已重启。` ``. -/
def notFoundMessage (tid : String) : String :=
  "任务ID " ++ tid ++ " 未找到。可能已过期或后端服务已重启。"

/-- The message of the `Error` thrown on any other non-ok status
response: `errorData.error || \x7bHTTP error! status: ...\x7d`. -/
def httpErrorMessage (status : Nat) (errorField : Option String) : String :=
  jsOrOpt errorField ("HTTP error! status: " ++ toString status)

/-- One iteration of the `setInterval` callback in the polling
`useEffect`, run against the captured `taskId` (`tid`).  Mirrors the
source: update `statusMessage` from `data.message`, then branch on
`data.status`; the `catch` block handles both thrown errors.
`polling := false` records `clearInterval(intervalId)`. -/
def pollStep (tid : String) (s : ControllerState) (o : PollOutcome) : ControllerState :=
  match o with
  | .ok data =>
    let s := { s with statusMessage := jsOr data.message "正在获取状态..." }
    match data.status with
    | .completed =>
      let s :=
        if strTruthy data.html_content then
          { s with htmlReportContent := data.html_content,
                   analysisResultUrl := none,
                   statusMessage := jsOr data.message "分析成功完成，报告内容已加载！" }
        else if strTruthy data.html_url then
          { s with analysisResultUrl :=
                     some (BACKEND_URL ++ data.html_url.getD ""),
                   htmlReportContent := none,
                   statusMessage := jsOr data.message "分析成功完成，报告链接已获取！" }
        else
          { s with statusMessage := jsOr data.message "分析成功完成，但未找到报告输出。" }
      { s with analysisStatus := .success, taskId := none, polling := false }
    | .failed =>
      { s with analysisStatus := .error,
               errorMessage :=
                 some (jsOrOpt data.error_details
                   (jsOr data.message "分析过程中发生未知错误。")),
               statusMessage := jsOr data.message "分析失败。",
               taskId := none, polling := false }
    | .processing =>
      { s with analysisStatus := .processing }
    | .pending =>
      { s with analysisStatus := .processing,
               statusMessage := jsOr data.message "任务正在等待执行..." }
  | .httpError status errorField =>
    let msg := if status == 404 then notFoundMessage tid
               else httpErrorMessage status errorField
    { s with analysisStatus := .error, errorMessage := some msg,
             statusMessage := "获取分析状态时出错。",
             taskId := none, polling := false }
  | .networkError m =>
    { s with analysisStatus := .error, errorMessage := some m,
             statusMessage := "获取分析状态时出错。",
             taskId := none, polling := false }

/-- One interval tick: the callback runs only while the interval is
live; once cleared (`polling = false`) no further outcome is
processed, matching `clearInterval`. -/
def pollTick (tid : String) (s : ControllerState) (o : PollOutcome) : ControllerState :=
  if s.polling then pollStep tid s o else s

/-- A run of the poll cycle over a sequence of fetch outcomes. -/
def pollRun (tid : String) (s : ControllerState) (os : List PollOutcome) : ControllerState :=
  os.foldl (pollTick tid) s

/-- A poll outcome that keeps the task alive: a 2xx response whose
status is `pending` or `processing`. -/
def nonterminalOk (o : PollOutcome) : Bool :=
  match o with
  | .ok d =>
    match d.status with
    | .pending => true
    | .processing => true
    | _ => false
  | _ => false

/-- The initial `useState` values of the controller (no interval
running before a task exists). -/
def initialState : ControllerState :=
  { analysisStatus := .idle, taskId := none, analysisResultUrl := none,
    htmlReportContent := none, statusMessage := "点击按钮开始分析文档。",
    errorMessage := none, polling := false }

/-- The request issued by `handleStartAnalysis` to
`POST /api/start-analysis` with body `{prompt}`. -/
structure StartRequest where
  url : String
  prompt : String
deriving DecidableEq, Repr

/-- Outcome of the submission `fetch`: parsed `task_id` on success,
non-ok HTTP status with parsed `error` field, or a thrown error. -/
inductive StartOutcome
  | ok (task_id : String)
  | httpError (status : Nat) (errorField : Option String)
  | networkError (msg : String)
deriving DecidableEq, Repr

/-- The unconditional prefix of `handleStartAnalysis`, executed before
the empty-prompt validation check: enter `loading`, reset the status
line, clear the previous error and both previous results. -/
def startAnalysisPrefix (s : ControllerState) : ControllerState :=
  { s with analysisStatus := .loading,
           statusMessage := "正在请求开始分析...",
           errorMessage := none,
           analysisResultUrl := none,
           htmlReportContent := none }

/-- The `handleStartAnalysis` handler, with the submission fetch's outcome supplied
by the environment.  Returns the new state and the list of network
requests issued (empty on the validation-rejection path). -/
def handleStartAnalysis (s : ControllerState) (reportRequirementsInput : String)
    (outcome : StartOutcome) : ControllerState × List StartRequest :=
  let s1 := startAnalysisPrefix s
  if jsTrim reportRequirementsInput == "" then
    ({ s1 with analysisStatus := .idle,
               errorMessage := some "报告生成需求不能为空。",
               statusMessage := "请输入报告生成需求后重试。" }, [])
  else
    let req : StartRequest :=
      { url := BACKEND_URL ++ "/api/start-analysis", prompt := reportRequirementsInput }
    let s2 :=
      match outcome with
      | .ok tid =>
        { s1 with taskId := some tid, analysisStatus := .processing,
                  statusMessage := "分析任务已启动，正在处理中...",
                  polling := true }
      | .httpError status errorField =>
        { s1 with analysisStatus := .error,
                  errorMessage := some (httpErrorMessage status errorField),
                  statusMessage := "分析启动失败。" }
      | .networkError m =>
        { s1 with analysisStatus := .error,
                  errorMessage := some m,
                  statusMessage := "分析启动失败。" }
    (s2, [req])

/-- A transcript entry (`chatMessages` element `{id, sender, text}`). -/
structure ChatMessage where
  id : String
  sender : String
  text : String
deriving DecidableEq, Repr

/-- Role tag of a chat-completion API message. -/
inductive ApiRole
  | system | user | assistant
deriving DecidableEq, Repr

/-- One entry of the `apiMessages` array sent to the completion API. -/
structure ApiMessage where
  role : ApiRole
  content : String
deriving DecidableEq, Repr

/-- The streaming chat-completion request: model identifier plus the
ordered message list. -/
structure ChatRequest where
  model : String
  messages : List ApiMessage
deriving DecidableEq, Repr

/-- JavaScript `arr.slice(-n)`: the last `n` elements (all of them when
the array is shorter). -/
def sliceLast (n : Nat) (l : List α) : List α := l.drop (l.length - n)

/-- The system-prompt entry pushed onto `apiMessages`: grounded on the
inline HTML when present, else on the report URL, else absent. -/
def systemMessages (htmlReportContent analysisResultUrl : Option String) : List ApiMessage :=
  if strTruthy htmlReportContent then
    [⟨.system,
      "You are an AI assistant. The user is viewing an HTML analysis report directly within their interface. Please answer their questions based on this document context that they are seeing. If a question seems unrelated to the document, use your general knowledge. Keep responses helpful and concise. The actual HTML content is: "
        ++ htmlReportContent.getD ""⟩]
  else if strTruthy analysisResultUrl then
    [⟨.system,
      "You are an AI assistant. The user has analyzed a document, and the analysis report is available at: "
        ++ analysisResultUrl.getD ""
        ++ ". Please answer questions based on this document. If the question seems unrelated to the document, use your general knowledge. Keep responses helpful and concise."⟩]
  else []

/-- The `forEach` body mapping a transcript entry to an API history
entry: `user` → `user`, `bot` → `assistant`, anything else skipped. -/
def toApiHistory (m : ChatMessage) : Option ApiMessage :=
  if m.sender == "user" then some ⟨.user, m.text⟩
  else if m.sender == "bot" then some ⟨.assistant, m.text⟩
  else none

/-- The prior-transcript entries used as history context:
`chatMessages.filter(msg => msg.text.trim() !== '').slice(-6)`. -/
def historySource (chatMessages : List ChatMessage) : List ChatMessage :=
  sliceLast 6 (chatMessages.filter (fun m => !(jsTrim m.text == "")))

/-- The full `apiMessages` array for one turn: optional system context,
then the history window, then the new user turn. -/
def buildApiMessages (htmlReportContent analysisResultUrl : Option String)
    (chatMessages : List ChatMessage) (currentUserInput : String) : List ApiMessage :=
  systemMessages htmlReportContent analysisResultUrl
    ++ (historySource chatMessages).filterMap toApiHistory
    ++ [⟨.user, currentUserInput⟩]

/-- One iteration of the `for await` loop: a falsy (empty) delta is
skipped; otherwise the accumulator grows and every transcript entry
whose id is `botMessageId` has its text replaced by the accumulator. -/
def applyChunk (botMessageId : String) (st : List ChatMessage × String)
    (contentDelta : String) : List ChatMessage × String :=
  if contentDelta == "" then st
  else
    (st.1.map (fun m =>
        if m.id == botMessageId then { m with text := st.2 ++ contentDelta } else m),
      st.2 ++ contentDelta)

/-- The whole `for await` loop over the arriving content deltas. -/
def streamLoop (botMessageId : String) (msgs : List ChatMessage) (acc : String)
    (chunks : List String) : List ChatMessage × String :=
  chunks.foldl (applyChunk botMessageId) (msgs, acc)

/-- Concatenation `c1 + ... + cN` of the arriving deltas. -/
def concatAll : List String → String
  | [] => ""
  | c :: cs => c ++ concatAll cs

/-- The chat-side React state read and written by `handleSendMessage`. -/
structure ChatState where
  chatMessages : List ChatMessage
  userInput : String
  statusMessage : String
  errorMessage : Option String
  htmlReportContent : Option String
  analysisResultUrl : Option String
deriving DecidableEq, Repr

/-- Outcome of the streaming completion call: the list of content
deltas of a stream consumed to the end, or a failure (thrown before or
during the stream) after consuming a prefix of deltas. -/
inductive ChatStreamOutcome
  | ok (chunks : List String)
  | error (consumed : List String) (msg : String)
deriving DecidableEq, Repr

/-- The `handleSendMessage` handler, with the clock reading entering the message
ids only through its decimal rendering `now` (the interpolation of
`Date.now()`), and the stream outcome supplied by the environment.
Returns the new state and the list of completion requests issued
(empty on the empty-input early return). -/
def handleSendMessage (st : ChatState) (now : String)
    (outcome : ChatStreamOutcome) : ChatState × List ChatRequest :=
  if jsTrim st.userInput == "" then (st, [])
  else
    let currentUserInput := st.userInput
    let newUserMessage : ChatMessage := ⟨"user-" ++ now, "user", currentUserInput⟩
    let msgs1 := st.chatMessages ++ [newUserMessage]
    let apiMessages :=
      buildApiMessages st.htmlReportContent st.analysisResultUrl
        st.chatMessages currentUserInput
    let botMessageId := "bot-" ++ now
    let msgs2 := msgs1 ++ [⟨botMessageId, "bot", ""⟩]
    let st2 := { st with chatMessages := msgs2, userInput := "",
                         errorMessage := none,
                         statusMessage := "大模型正在思考..." }
    let req : ChatRequest := ⟨"deepseek-chat", apiMessages⟩
    match outcome with
    | .ok chunks =>
      let res := streamLoop botMessageId msgs2 "" chunks
      ({ st2 with chatMessages := res.1, statusMessage := "大模型已回复。" }, [req])
    | .error consumed emsg =>
      let res := streamLoop botMessageId msgs2 "" consumed
      ({ st2 with chatMessages :=
                    res.1.map (fun m =>
                      if m.id == botMessageId then { m with text := "错误: " ++ emsg } else m),
                  statusMessage := "消息发送或处理回复失败。",
                  errorMessage := some emsg }, [req])

/-- The two transcript-entry ids a turn creates from one clock reading:
`` `user-${Date.now()}` `` and `` `bot-${Date.now()}` ``. -/
def turnIds (now : String) : List String := ["user-" ++ now, "bot-" ++ now]

/-- All ids appended during a session whose turns observed the given
sequence of clock readings. -/
def sessionIds (nows : List String) : List String := nows.flatMap turnIds

/-- A poll outcome that ends the task: a 2xx body with a terminal
status, or any transport failure. -/
def terminalOutcome (o : PollOutcome) : Bool :=
  match o with
  | .ok d =>
    match d.status with
    | .completed => true
    | .failed => true
    | _ => false
  | _ => true

/-- A `completed` 2xx body carrying neither a truthy `html_content`
nor a truthy `html_url` — the backend-contract-violation edge case. -/
def completedNoPayload (o : PollOutcome) : Bool :=
  match o with
  | .ok d =>
    match d.status with
    | .completed => !strTruthy d.html_content && !strTruthy d.html_url
    | _ => false
  | _ => false

/-- The result payload (inline HTML or remote URL) is set. -/
def resultPayloadSet (s : ControllerState) : Bool :=
  s.htmlReportContent.isSome || s.analysisResultUrl.isSome

/-- The error detail is set. -/
def errorDetailSet (s : ControllerState) : Bool :=
  s.errorMessage.isSome

/-- The controller state right after submitting the prompt `总结文档`
and the backend accepting it with `task_id = abc123`. -/
def submittedState : ControllerState :=
  (handleStartAnalysis initialState "总结文档" (.ok "abc123")).1

/-- A non-terminal `processing` status response for the demo task. -/
def processingResponse : TaskStatusResponse :=
  { task_id := "abc123", status := .processing, message := "处理中" }

/-- A chat state with an eight-entry prior transcript and a pending
user question, used as the spec's history-window scenario. -/
def demoChatState : ChatState :=
  { chatMessages :=
      [⟨"user-1", "user", "m1"⟩, ⟨"bot-2", "bot", "m2"⟩,
       ⟨"user-3", "user", "m3"⟩, ⟨"bot-4", "bot", "m4"⟩,
       ⟨"user-5", "user", "m5"⟩, ⟨"bot-6", "bot", "m6"⟩,
       ⟨"user-7", "user", "m7"⟩, ⟨"bot-8", "bot", "m8"⟩],
    userInput := "新问题", statusMessage := "", errorMessage := none,
    htmlReportContent := some "<h1>OK</h1>", analysisResultUrl := none }

/-! ### Poll-cycle lemmas -/

theorem pollRun_append (tid : String) (s : ControllerState) (os os2 : List PollOutcome) :
    pollRun tid s (os ++ os2) = pollRun tid (pollRun tid s os) os2 := by
  simp [pollRun, List.foldl_append]

theorem pollStep_nonterminal_fields (tid : String) (s : ControllerState) (o : PollOutcome)
    (h : nonterminalOk o = true) :
    (pollStep tid s o).polling = s.polling ∧
    (pollStep tid s o).taskId = s.taskId ∧
    (pollStep tid s o).htmlReportContent = s.htmlReportContent ∧
    (pollStep tid s o).analysisResultUrl = s.analysisResultUrl ∧
    (pollStep tid s o).errorMessage = s.errorMessage := by
  match o with
  | .ok d =>
    cases hs : d.status
    · simp [pollStep, hs]
    · simp [pollStep, hs]
    · simp [nonterminalOk, hs] at h
    · simp [nonterminalOk, hs] at h
  | .httpError st ef => simp [nonterminalOk] at h
  | .networkError m => simp [nonterminalOk] at h

theorem pollTick_nonterminal_fields (tid : String) (s : ControllerState) (o : PollOutcome)
    (h : nonterminalOk o = true) :
    (pollTick tid s o).polling = s.polling ∧
    (pollTick tid s o).taskId = s.taskId ∧
    (pollTick tid s o).htmlReportContent = s.htmlReportContent ∧
    (pollTick tid s o).analysisResultUrl = s.analysisResultUrl ∧
    (pollTick tid s o).errorMessage = s.errorMessage := by
  unfold pollTick
  by_cases hp : s.polling = true
  · simpa [hp] using pollStep_nonterminal_fields tid s o h
  · simp [hp]

theorem pollRun_nonterminal_fields (tid : String) (os : List PollOutcome)
    (s : ControllerState) (h : ∀ o ∈ os, nonterminalOk o = true) :
    (pollRun tid s os).polling = s.polling ∧
    (pollRun tid s os).taskId = s.taskId ∧
    (pollRun tid s os).htmlReportContent = s.htmlReportContent ∧
    (pollRun tid s os).analysisResultUrl = s.analysisResultUrl ∧
    (pollRun tid s os).errorMessage = s.errorMessage := by
  induction os generalizing s with
  | nil => simp [pollRun]
  | cons o os ih =>
    have ho : nonterminalOk o = true := h o (by simp)
    have hos : ∀ o2 ∈ os, nonterminalOk o2 = true := fun o2 h2 => h o2 (by simp [h2])
    have hrun : pollRun tid s (o :: os) = pollRun tid (pollTick tid s o) os := rfl
    obtain ⟨g1, g2, g3, g4, g5⟩ := ih (pollTick tid s o) hos
    obtain ⟨h1, h2, h3, h4, h5⟩ := pollTick_nonterminal_fields tid s o ho
    rw [hrun]
    exact ⟨g1.trans h1, g2.trans h2, g3.trans h3, g4.trans h4, g5.trans h5⟩

/-! ### String helpers -/

theorem string_ne_of_head_append (a b : String) (x y : Char) (ta tb : List Char)
    (ha : a.data = x :: ta) (hb : b.data = y :: tb) (hxy : x ≠ y) (s t : String) :
    a ++ s ≠ b ++ t := by
  intro h
  have hd := congrArg String.data h
  rw [String.data_append, String.data_append, ha, hb, List.cons_append,
    List.cons_append] at hd
  exact hxy (List.cons.inj hd).1

theorem string_ne_of_head (a b : String) (x y : Char) (ta tb : List Char)
    (ha : a.data = x :: ta) (hb : b.data = y :: tb) (hxy : x ≠ y) : a ≠ b := by
  intro h
  have hd := congrArg String.data h
  rw [ha, hb] at hd
  exact hxy (List.cons.inj hd).1

theorem string_append_left_cancel {a s t : String} (h : a ++ s = a ++ t) : s = t := by
  have hd := congrArg String.data h
  rw [String.data_append, String.data_append] at hd
  exact String.ext (List.append_cancel_left hd)

theorem pollStep_completed_inline (tid : String) (s : ControllerState)
    (d : TaskStatusResponse) (c : String) (hst : d.status = .completed)
    (hc : d.html_content = some c) (hne : c ≠ "") :
    (pollStep tid s (.ok d)).htmlReportContent = some c ∧
    (pollStep tid s (.ok d)).analysisResultUrl = none ∧
    (pollStep tid s (.ok d)).polling = false ∧
    (pollStep tid s (.ok d)).taskId = none := by
  simp [pollStep, hst, hc, strTruthy, hne]

/-! ### C1 — completed with inline content -/

/-- C1 (amended: `html_content` present *and non-empty*): for every
sequence of poll responses whose earlier elements are non-terminal and
whose last has status `completed` with non-empty `html_content`, the
final state stores that content inline, unsets the remote URL, stops
polling and clears the task identifier. -/
theorem claim1_completed_inline_final (tid : String) (s : ControllerState)
    (os : List PollOutcome) (d : TaskStatusResponse) (c : String)
    (hpoll : s.polling = true)
    (hos : ∀ o ∈ os, nonterminalOk o = true)
    (hst : d.status = .completed)
    (hc : d.html_content = some c) (hne : c ≠ "") :
    (pollRun tid s (os ++ [.ok d])).htmlReportContent = some c ∧
    (pollRun tid s (os ++ [.ok d])).analysisResultUrl = none ∧
    (pollRun tid s (os ++ [.ok d])).polling = false ∧
    (pollRun tid s (os ++ [.ok d])).taskId = none := by
  have hmid := pollRun_nonterminal_fields tid os s hos
  have hp : (pollRun tid s os).polling = true := hmid.1.trans hpoll
  rw [pollRun_append]
  have hstep : pollRun tid (pollRun tid s os) [.ok d]
      = pollStep tid (pollRun tid s os) (.ok d) := by
    have h0 : pollRun tid (pollRun tid s os) [.ok d]
        = pollTick tid (pollRun tid s os) (.ok d) := rfl
    rw [h0]; simp [pollTick, hp]
  rw [hstep]
  exact pollStep_completed_inline tid _ d c hst hc hne

/-- C1 counterexample: a `completed` response whose `html_content` is
present but empty (`some ""`) does not populate the inline field with
that content — the code tests JS truthiness, not presence, so the
inline field stays `none`. -/
theorem claim1_empty_content_counterexample :
    (pollRun "abc123" submittedState
        [.ok { task_id := "abc123", status := .completed, message := "done",
               html_content := some "" }]).htmlReportContent ≠ some "" ∧
    (pollRun "abc123" submittedState
        [.ok { task_id := "abc123", status := .completed, message := "done",
               html_content := some "" }]).htmlReportContent = none := by
  constructor
  · decide
  · decide

/-- Witness for C1: the spec scenario — two `processing` polls then
`completed` with `html_content = "<h1>OK</h1>"`. -/
theorem claim1_completed_inline_final_witness :
    (pollRun "abc123" submittedState
        ([.ok processingResponse, .ok processingResponse] ++
          [.ok { task_id := "abc123", status := .completed, message := "done",
                 html_content := some "<h1>OK</h1>" }])).htmlReportContent
        = some "<h1>OK</h1>" ∧
    (pollRun "abc123" submittedState
        ([.ok processingResponse, .ok processingResponse] ++
          [.ok { task_id := "abc123", status := .completed, message := "done",
                 html_content := some "<h1>OK</h1>" }])).analysisResultUrl = none ∧
    (pollRun "abc123" submittedState
        ([.ok processingResponse, .ok processingResponse] ++
          [.ok { task_id := "abc123", status := .completed, message := "done",
                 html_content := some "<h1>OK</h1>" }])).polling = false ∧
    (pollRun "abc123" submittedState
        ([.ok processingResponse, .ok processingResponse] ++
          [.ok { task_id := "abc123", status := .completed, message := "done",
                 html_content := some "<h1>OK</h1>" }])).taskId = none :=
  claim1_completed_inline_final "abc123" submittedState
    [.ok processingResponse, .ok processingResponse]
    { task_id := "abc123", status := .completed, message := "done",
      html_content := some "<h1>OK</h1>" }
    "<h1>OK</h1>" (by decide) (by decide) rfl rfl (by decide)

/-! ### C6 — completed with only a remote URL -/

theorem pollStep_completed_url (tid : String) (s : ControllerState)
    (d : TaskStatusResponse) (u : String) (hst : d.status = .completed)
    (hnc : d.html_content = none) (hu : d.html_url = some u) (hune : u ≠ "") :
    (pollStep tid s (.ok d)).analysisResultUrl = some (BACKEND_URL ++ u) ∧
    (pollStep tid s (.ok d)).htmlReportContent = none ∧
    (pollStep tid s (.ok d)).polling = false ∧
    (pollStep tid s (.ok d)).taskId = none := by
  simp [pollStep, hst, hnc, hu, strTruthy, hune]

/-- C6 (amended: `html_url` present *and non-empty*): for every
sequence of poll responses whose earlier elements are non-terminal and
whose last has status `completed` with no `html_content` and a
non-empty `html_url`, the final state stores the backend base address
concatenated with that URL, unsets the inline field, stops polling and
clears the task identifier. -/
theorem claim6_completed_url_final (tid : String) (s : ControllerState)
    (os : List PollOutcome) (d : TaskStatusResponse) (u : String)
    (hpoll : s.polling = true)
    (hos : ∀ o ∈ os, nonterminalOk o = true)
    (hst : d.status = .completed)
    (hnc : d.html_content = none) (hu : d.html_url = some u) (hune : u ≠ "") :
    (pollRun tid s (os ++ [.ok d])).analysisResultUrl = some (BACKEND_URL ++ u) ∧
    (pollRun tid s (os ++ [.ok d])).htmlReportContent = none ∧
    (pollRun tid s (os ++ [.ok d])).polling = false ∧
    (pollRun tid s (os ++ [.ok d])).taskId = none := by
  have hmid := pollRun_nonterminal_fields tid os s hos
  have hp : (pollRun tid s os).polling = true := hmid.1.trans hpoll
  rw [pollRun_append]
  have hstep : pollRun tid (pollRun tid s os) [.ok d]
      = pollStep tid (pollRun tid s os) (.ok d) := by
    have h0 : pollRun tid (pollRun tid s os) [.ok d]
        = pollTick tid (pollRun tid s os) (.ok d) := rfl
    rw [h0]; simp [pollTick, hp]
  rw [hstep]
  exact pollStep_completed_url tid _ d u hst hnc hu hune

/-- C6 counterexample: a `completed` response with `html_url` present
but empty (`some ""`) does not set the remote-URL field to the base
address — JS truthiness sends it to the no-payload branch instead. -/
theorem claim6_empty_url_counterexample :
    (pollRun "abc123" submittedState
        [.ok { task_id := "abc123", status := .completed, message := "done",
               html_url := some "" }]).analysisResultUrl
        ≠ some (BACKEND_URL ++ "") ∧
    (pollRun "abc123" submittedState
        [.ok { task_id := "abc123", status := .completed, message := "done",
               html_url := some "" }]).analysisResultUrl = none := by
  constructor
  · decide
  · decide

/-- Witness for C6: one `processing` poll then `completed` with
`html_url = "/reports/r1.html"`. -/
theorem claim6_completed_url_final_witness :
    (pollRun "abc123" submittedState
        ([.ok processingResponse] ++
          [.ok { task_id := "abc123", status := .completed, message := "done",
                 html_url := some "/reports/r1.html" }])).analysisResultUrl
        = some (BACKEND_URL ++ "/reports/r1.html") ∧
    (pollRun "abc123" submittedState
        ([.ok processingResponse] ++
          [.ok { task_id := "abc123", status := .completed, message := "done",
                 html_url := some "/reports/r1.html" }])).htmlReportContent = none ∧
    (pollRun "abc123" submittedState
        ([.ok processingResponse] ++
          [.ok { task_id := "abc123", status := .completed, message := "done",
                 html_url := some "/reports/r1.html" }])).polling = false ∧
    (pollRun "abc123" submittedState
        ([.ok processingResponse] ++
          [.ok { task_id := "abc123", status := .completed, message := "done",
                 html_url := some "/reports/r1.html" }])).taskId = none :=
  claim6_completed_url_final "abc123" submittedState [.ok processingResponse]
    { task_id := "abc123", status := .completed, message := "done",
      html_url := some "/reports/r1.html" }
    "/reports/r1.html" (by decide) (by decide) rfl rfl rfl (by decide)

/-! ### C4 — failed status -/

theorem pollStep_failed (tid : String) (s : ControllerState)
    (d : TaskStatusResponse) (hst : d.status = .failed) :
    (pollStep tid s (.ok d)).polling = false ∧
    (pollStep tid s (.ok d)).taskId = none ∧
    (pollStep tid s (.ok d)).errorMessage =
      some (jsOrOpt d.error_details (jsOr d.message "分析过程中发生未知错误。")) := by
  simp [pollStep, hst]

/-- C4 (amended): for every sequence of poll responses whose earlier
elements are non-terminal and whose last has status `failed`, polling
stops and the task identifier is cleared; the stored error equals
`error_details` when that field is present *and non-empty*, otherwise
`message` when *it* is non-empty, otherwise the fixed fallback
`分析过程中发生未知错误。` (the code uses JS `||`, so empty strings fall
through). -/
theorem claim4_failed_error_detail (tid : String) (s : ControllerState)
    (os : List PollOutcome) (d : TaskStatusResponse)
    (hpoll : s.polling = true)
    (hos : ∀ o ∈ os, nonterminalOk o = true)
    (hst : d.status = .failed) :
    (pollRun tid s (os ++ [.ok d])).polling = false ∧
    (pollRun tid s (os ++ [.ok d])).taskId = none ∧
    (∀ e, d.error_details = some e → e ≠ "" →
      (pollRun tid s (os ++ [.ok d])).errorMessage = some e) ∧
    (d.error_details = none → d.message ≠ "" →
      (pollRun tid s (os ++ [.ok d])).errorMessage = some d.message) ∧
    (d.error_details = some "" → d.message ≠ "" →
      (pollRun tid s (os ++ [.ok d])).errorMessage = some d.message) ∧
    ((d.error_details = none ∨ d.error_details = some "") → d.message = "" →
      (pollRun tid s (os ++ [.ok d])).errorMessage
        = some "分析过程中发生未知错误。") := by
  have hmid := pollRun_nonterminal_fields tid os s hos
  have hp : (pollRun tid s os).polling = true := hmid.1.trans hpoll
  rw [pollRun_append]
  have hstep : pollRun tid (pollRun tid s os) [.ok d]
      = pollStep tid (pollRun tid s os) (.ok d) := by
    have h0 : pollRun tid (pollRun tid s os) [.ok d]
        = pollTick tid (pollRun tid s os) (.ok d) := rfl
    rw [h0]; simp [pollTick, hp]
  rw [hstep]
  obtain ⟨h1, h2, h3⟩ := pollStep_failed tid (pollRun tid s os) d hst
  refine ⟨h1, h2, ?_, ?_, ?_, ?_⟩
  · intro e he hne
    rw [h3, he]; simp [jsOrOpt, jsOr, hne]
  · intro he hne
    rw [h3, he]; simp [jsOrOpt, jsOr, hne]
  · intro he hne
    rw [h3, he]; simp [jsOrOpt, jsOr, hne]
  · intro he hm
    rcases he with he | he <;> rw [h3, he] <;> simp [jsOrOpt, jsOr, hm]

/-- C4 counterexample: a `failed` response with no `error_details` and
an empty `message` field stores the fixed fallback text, not the
(empty) `message` the claim requires. -/
theorem claim4_empty_message_counterexample :
    (pollRun "abc123" submittedState
        [.ok { task_id := "abc123", status := .failed,
               message := "" }]).errorMessage ≠ some "" ∧
    (pollRun "abc123" submittedState
        [.ok { task_id := "abc123", status := .failed,
               message := "" }]).errorMessage
      = some "分析过程中发生未知错误。" := by
  constructor
  · decide
  · decide

/-- Witness for C4: the spec scenario — `failed` with
`error_details = "parse error"`. -/
theorem claim4_failed_error_detail_witness :
    (pollRun "abc123" submittedState
        ([.ok processingResponse] ++
          [.ok { task_id := "abc123", status := .failed, message := "分析失败",
                 error_details := some "parse error" }])).errorMessage
        = some "parse error" ∧
    (pollRun "abc123" submittedState
        ([.ok processingResponse] ++
          [.ok { task_id := "abc123", status := .failed, message := "分析失败",
                 error_details := some "parse error" }])).polling = false ∧
    (pollRun "abc123" submittedState
        ([.ok processingResponse] ++
          [.ok { task_id := "abc123", status := .failed, message := "分析失败",
                 error_details := some "parse error" }])).taskId = none := by
  have h := claim4_failed_error_detail "abc123" submittedState
    [.ok processingResponse]
    { task_id := "abc123", status := .failed, message := "分析失败",
      error_details := some "parse error" }
    (by decide) (by decide) rfl
  exact ⟨h.2.2.1 "parse error" rfl (by decide), h.1, h.2.1⟩

/-! ### C5 — 404 during polling -/

theorem notFoundMessage_data_cons (tid : String) :
    (notFoundMessage tid).data =
      '任' :: (("务ID " : String).data ++
        (tid.data ++ (" 未找到。可能已过期或后端服务已重启。" : String).data)) := by
  have h : ("任务ID " : String).data = '任' :: ("务ID " : String).data := by decide
  simp [notFoundMessage, h]

theorem httpFallback_data_cons (n : Nat) :
    ("HTTP error! status: " ++ toString n : String).data =
      'H' :: (("TTP error! status: " : String).data ++ (toString n).data) := by
  have h : ("HTTP error! status: " : String).data
      = 'H' :: ("TTP error! status: " : String).data := by decide
  simp [h]

/-- C5: a 404 during polling stores the distinguished not-found
message (mentioning the task identifier and possible expiry or backend
restart), sets the lifecycle to error, clears the task identifier and
stops polling; the message differs from the client's generic HTTP
fallback for every status code and from the generic fetch-failure
default, so the 404 is terminal and distinctly surfaced. -/
theorem claim5_notfound_terminal (tid : String) (s : ControllerState)
    (ef : Option String) (hpoll : s.polling = true) :
    (pollRun tid s [.httpError 404 ef]).errorMessage = some (notFoundMessage tid) ∧
    (pollRun tid s [.httpError 404 ef]).analysisStatus = .error ∧
    (pollRun tid s [.httpError 404 ef]).taskId = none ∧
    (pollRun tid s [.httpError 404 ef]).polling = false ∧
    tid.data <:+: (notFoundMessage tid).data ∧
    (" 未找到。可能已过期或后端服务已重启。" : String).data <:+: (notFoundMessage tid).data ∧
    (∀ n : Nat, notFoundMessage tid ≠ "HTTP error! status: " ++ toString n) ∧
    notFoundMessage tid ≠ "获取分析状态失败。" := by
  have hstep : pollRun tid s [.httpError 404 ef]
      = pollStep tid s (.httpError 404 ef) := by
    have h0 : pollRun tid s [.httpError 404 ef]
        = pollTick tid s (.httpError 404 ef) := rfl
    rw [h0]; simp [pollTick, hpoll]
  rw [hstep]
  refine ⟨by simp [pollStep], by simp [pollStep], by simp [pollStep],
    by simp [pollStep], ?_, ?_, ?_, ?_⟩
  · exact ⟨("任务ID " : String).data,
      (" 未找到。可能已过期或后端服务已重启。" : String).data,
      by simp [notFoundMessage]⟩
  · exact ⟨("任务ID " : String).data ++ tid.data, [],
      by simp [notFoundMessage]⟩
  · intro n
    exact string_ne_of_head _ _ '任' 'H' _ _
      (notFoundMessage_data_cons tid) (httpFallback_data_cons n) (by decide)
  · have h : ("获取分析状态失败。" : String).data
        = '获' :: ("取分析状态失败。" : String).data := by decide
    exact string_ne_of_head _ _ '任' '获' _ _
      (notFoundMessage_data_cons tid) h (by decide)

/-- Witness for C5: the 404 outcome for task `abc123`. -/
theorem claim5_notfound_terminal_witness :
    (pollRun "abc123" submittedState [.httpError 404 none]).errorMessage
      = some (notFoundMessage "abc123") ∧
    (pollRun "abc123" submittedState [.httpError 404 none]).analysisStatus = .error ∧
    (pollRun "abc123" submittedState [.httpError 404 none]).taskId = none ∧
    (pollRun "abc123" submittedState [.httpError 404 none]).polling = false ∧
    notFoundMessage "abc123" ≠ "HTTP error! status: " ++ toString 500 ∧
    notFoundMessage "abc123" ≠ "获取分析状态失败。" := by
  have h := claim5_notfound_terminal "abc123" submittedState none (by decide)
  exact ⟨h.1, h.2.1, h.2.2.1, h.2.2.2.1, h.2.2.2.2.2.2.1 500, h.2.2.2.2.2.2.2⟩

/-! ### C2 — terminal exclusivity invariant -/

theorem isSome_of_strTruthy {x : Option String} (h : strTruthy x = true) :
    x.isSome = true := by
  cases x <;> simp_all [strTruthy]

theorem pollStep_terminal_exclusive (tid : String) (s : ControllerState)
    (o : PollOutcome)
    (h0 : s.htmlReportContent = none) (h1 : s.analysisResultUrl = none)
    (h2 : s.errorMessage = none) (hterm : terminalOutcome o = true) :
    (completedNoPayload o = false →
      (resultPayloadSet (pollStep tid s o) = true ∧
        errorDetailSet (pollStep tid s o) = false) ∨
      (resultPayloadSet (pollStep tid s o) = false ∧
        errorDetailSet (pollStep tid s o) = true)) ∧
    (completedNoPayload o = true →
      resultPayloadSet (pollStep tid s o) = false ∧
      errorDetailSet (pollStep tid s o) = false) := by
  match o with
  | .ok d =>
    cases hs : d.status
    · simp [terminalOutcome, hs] at hterm
    · simp [terminalOutcome, hs] at hterm
    · by_cases hc : strTruthy d.html_content
      · refine ⟨fun _ => .inl ?_, fun hnp => ?_⟩
        · have hcs := isSome_of_strTruthy hc
          simp [pollStep, hs, hc, resultPayloadSet, errorDetailSet, hcs, h2]
        · simp [completedNoPayload, hs, hc] at hnp
      · by_cases hu : strTruthy d.html_url
        · refine ⟨fun _ => .inl ?_, fun hnp => ?_⟩
          · simp [pollStep, hs, hc, hu, resultPayloadSet, errorDetailSet, h2]
          · simp [completedNoPayload, hs, hc, hu] at hnp
        · refine ⟨fun hnp => ?_, fun _ => ?_⟩
          · simp [completedNoPayload, hs, hc, hu] at hnp
          · simp [pollStep, hs, hc, hu, resultPayloadSet, errorDetailSet, h0, h1, h2]
    · refine ⟨fun _ => .inr ?_, fun hnp => ?_⟩
      · simp [pollStep, hs, resultPayloadSet, errorDetailSet, h0, h1]
      · simp [completedNoPayload, hs] at hnp
  | .httpError st ef =>
    refine ⟨fun _ => .inr ?_, fun hnp => ?_⟩
    · simp [pollStep, resultPayloadSet, errorDetailSet, h0, h1]
    · simp [completedNoPayload] at hnp
  | .networkError m =>
    refine ⟨fun _ => .inr ?_, fun hnp => ?_⟩
    · simp [pollStep, resultPayloadSet, errorDetailSet, h0, h1]
    · simp [completedNoPayload] at hnp

/-- C2 (amended): for every task run starting from a submitted state
(no result payload, no error detail) whose earlier poll responses are
non-terminal and whose last outcome is terminal, exactly one of the
result payload and the error detail is set afterwards — *except* for
a `completed` response carrying neither a truthy `html_content` nor a
truthy `html_url`, where the code marks success while leaving both the
payload and the error unset. -/
theorem claim2_terminal_exclusive (tid : String) (s : ControllerState)
    (os : List PollOutcome) (last : PollOutcome)
    (h0 : s.htmlReportContent = none) (h1 : s.analysisResultUrl = none)
    (h2 : s.errorMessage = none) (hpoll : s.polling = true)
    (hos : ∀ o ∈ os, nonterminalOk o = true)
    (hterm : terminalOutcome last = true) :
    (completedNoPayload last = false →
      (resultPayloadSet (pollRun tid s (os ++ [last])) = true ∧
        errorDetailSet (pollRun tid s (os ++ [last])) = false) ∨
      (resultPayloadSet (pollRun tid s (os ++ [last])) = false ∧
        errorDetailSet (pollRun tid s (os ++ [last])) = true)) ∧
    (completedNoPayload last = true →
      resultPayloadSet (pollRun tid s (os ++ [last])) = false ∧
      errorDetailSet (pollRun tid s (os ++ [last])) = false) := by
  have hmid := pollRun_nonterminal_fields tid os s hos
  have hp : (pollRun tid s os).polling = true := hmid.1.trans hpoll
  rw [pollRun_append]
  have hstep : pollRun tid (pollRun tid s os) [last]
      = pollStep tid (pollRun tid s os) last := by
    have hq : pollRun tid (pollRun tid s os) [last]
        = pollTick tid (pollRun tid s os) last := rfl
    rw [hq]; simp [pollTick, hp]
  rw [hstep]
  exact pollStep_terminal_exclusive tid (pollRun tid s os) last
    (hmid.2.2.1.trans h0) (hmid.2.2.2.1.trans h1) (hmid.2.2.2.2.trans h2) hterm

/-- C2 counterexample: a `completed` response with neither
`html_content` nor `html_url` reaches the terminal `success` state
with *neither* the result payload nor the error detail set, violating
the exactly-one invariant as stated. -/
theorem claim2_completed_no_payload_counterexample :
    (pollRun "abc123" submittedState
        [.ok { task_id := "abc123", status := .completed,
               message := "done" }]).analysisStatus = .success ∧
    resultPayloadSet (pollRun "abc123" submittedState
        [.ok { task_id := "abc123", status := .completed,
               message := "done" }]) = false ∧
    errorDetailSet (pollRun "abc123" submittedState
        [.ok { task_id := "abc123", status := .completed,
               message := "done" }]) = false := by
  refine ⟨?_, ?_, ?_⟩ <;> decide

/-- Witness for C2: a `failed` terminal response from the submitted
state leaves exactly one side (the error detail) set. -/
theorem claim2_terminal_exclusive_witness :
    (resultPayloadSet (pollRun "abc123" submittedState
        ([.ok processingResponse] ++
          [.ok { task_id := "abc123", status := .failed,
                 message := "分析失败" }])) = true ∧
      errorDetailSet (pollRun "abc123" submittedState
        ([.ok processingResponse] ++
          [.ok { task_id := "abc123", status := .failed,
                 message := "分析失败" }])) = false) ∨
    (resultPayloadSet (pollRun "abc123" submittedState
        ([.ok processingResponse] ++
          [.ok { task_id := "abc123", status := .failed,
                 message := "分析失败" }])) = false ∧
      errorDetailSet (pollRun "abc123" submittedState
        ([.ok processingResponse] ++
          [.ok { task_id := "abc123", status := .failed,
                 message := "分析失败" }])) = true) :=
  (claim2_terminal_exclusive "abc123" submittedState [.ok processingResponse]
    (.ok { task_id := "abc123", status := .failed, message := "分析失败" })
    (by decide) (by decide) (by decide) (by decide) (by decide) (by decide)).1
    (by decide)

/-! ### C3 — empty-input validation -/

/-- C3 (amended): for every empty or whitespace-only input, both
operations perform zero network calls; `handleStartAnalysis` reports a
local validation error and ends in `idle`, while `handleSendMessage`
returns with the state entirely unchanged — silently, *without*
reporting any validation error. -/
theorem claim3_empty_input_no_network (input : String) (h : jsTrim input = "")
    (s : ControllerState) (outcome : StartOutcome)
    (st : ChatState) (now : String) (oc : ChatStreamOutcome)
    (hin : st.userInput = input) :
    (handleStartAnalysis s input outcome).2 = [] ∧
    (handleStartAnalysis s input outcome).1.errorMessage
      = some "报告生成需求不能为空。" ∧
    (handleStartAnalysis s input outcome).1.analysisStatus = .idle ∧
    handleSendMessage st now oc = (st, []) := by
  refine ⟨?_, ?_, ?_, ?_⟩ <;>
    simp [handleStartAnalysis, handleSendMessage, hin, h, startAnalysisPrefix]

/-- C3 counterexample: on whitespace-only input the chat-turn handler
performs zero network calls but returns with the state — including the
absent error message — completely unchanged, so no validation error is
reported, contrary to the claim. -/
theorem claim3_silent_send_counterexample :
    handleSendMessage
        { chatMessages := [], userInput := "   ", statusMessage := "大模型已回复。",
          errorMessage := none, htmlReportContent := some "<h1>OK</h1>",
          analysisResultUrl := none } "1000" (.ok [])
      = ({ chatMessages := [], userInput := "   ", statusMessage := "大模型已回复。",
           errorMessage := none, htmlReportContent := some "<h1>OK</h1>",
           analysisResultUrl := none }, []) ∧
    (handleSendMessage
        { chatMessages := [], userInput := "   ", statusMessage := "大模型已回复。",
          errorMessage := none, htmlReportContent := some "<h1>OK</h1>",
          analysisResultUrl := none } "1000" (.ok [])).1.errorMessage = none := by
  refine ⟨?_, ?_⟩ <;> decide

/-- Witness for C3: input `"   "` (three spaces). -/
theorem claim3_empty_input_no_network_witness :
    (handleStartAnalysis initialState "   " (.ok "abc123")).2 = [] ∧
    (handleStartAnalysis initialState "   " (.ok "abc123")).1.errorMessage
      = some "报告生成需求不能为空。" ∧
    (handleStartAnalysis initialState "   " (.ok "abc123")).1.analysisStatus = .idle ∧
    handleSendMessage
        { chatMessages := [], userInput := "   ", statusMessage := "",
          errorMessage := none, htmlReportContent := none,
          analysisResultUrl := none } "1000" (.ok ["Hi"])
      = ({ chatMessages := [], userInput := "   ", statusMessage := "",
           errorMessage := none, htmlReportContent := none,
           analysisResultUrl := none }, []) :=
  claim3_empty_input_no_network "   " (by decide) initialState (.ok "abc123")
    { chatMessages := [], userInput := "   ", statusMessage := "",
      errorMessage := none, htmlReportContent := none, analysisResultUrl := none }
    "1000" (.ok ["Hi"]) rfl

/-! ### C10 — non-atomic rejection of an empty prompt -/

/-- C10: the empty-prompt rejection in `handleStartAnalysis` is not
atomic: the unconditional prefix has already cleared both previous
results and the previous error and entered `loading` before the
validation check, and the rejected call ends in `idle` with the prior
results lost (both result fields `none`), a validation error stored,
and no request issued. -/
theorem claim10_nonatomic_reject (s : ControllerState) (input : String)
    (outcome : StartOutcome) (h : jsTrim input = "") :
    (startAnalysisPrefix s).analysisStatus = .loading ∧
    (startAnalysisPrefix s).htmlReportContent = none ∧
    (startAnalysisPrefix s).analysisResultUrl = none ∧
    (startAnalysisPrefix s).errorMessage = none ∧
    (handleStartAnalysis s input outcome).1.analysisStatus = .idle ∧
    (handleStartAnalysis s input outcome).1.htmlReportContent = none ∧
    (handleStartAnalysis s input outcome).1.analysisResultUrl = none ∧
    (handleStartAnalysis s input outcome).1.errorMessage
      = some "报告生成需求不能为空。" ∧
    (handleStartAnalysis s input outcome).2 = [] := by
  refine ⟨?_, ?_, ?_, ?_, ?_, ?_, ?_, ?_, ?_⟩ <;>
    simp [handleStartAnalysis, startAnalysisPrefix, h]

/-- Witness for C10: a state holding a previous inline report and a
previous error, rejected on the empty prompt `""`; the prior result is
wiped even though no request was issued. -/
theorem claim10_nonatomic_reject_witness :
    (startAnalysisPrefix
        { analysisStatus := .success, taskId := none,
          analysisResultUrl := some "http://localhost:5001/old.html",
          htmlReportContent := some "<h1>old</h1>",
          statusMessage := "分析成功完成，报告内容已加载！",
          errorMessage := some "旧错误", polling := false }).analysisStatus
      = .loading ∧
    (startAnalysisPrefix
        { analysisStatus := .success, taskId := none,
          analysisResultUrl := some "http://localhost:5001/old.html",
          htmlReportContent := some "<h1>old</h1>",
          statusMessage := "分析成功完成，报告内容已加载！",
          errorMessage := some "旧错误", polling := false }).htmlReportContent
      = none ∧
    (startAnalysisPrefix
        { analysisStatus := .success, taskId := none,
          analysisResultUrl := some "http://localhost:5001/old.html",
          htmlReportContent := some "<h1>old</h1>",
          statusMessage := "分析成功完成，报告内容已加载！",
          errorMessage := some "旧错误", polling := false }).analysisResultUrl
      = none ∧
    (startAnalysisPrefix
        { analysisStatus := .success, taskId := none,
          analysisResultUrl := some "http://localhost:5001/old.html",
          htmlReportContent := some "<h1>old</h1>",
          statusMessage := "分析成功完成，报告内容已加载！",
          errorMessage := some "旧错误", polling := false }).errorMessage
      = none ∧
    (handleStartAnalysis
        { analysisStatus := .success, taskId := none,
          analysisResultUrl := some "http://localhost:5001/old.html",
          htmlReportContent := some "<h1>old</h1>",
          statusMessage := "分析成功完成，报告内容已加载！",
          errorMessage := some "旧错误", polling := false } "" (.ok "t9")).1.analysisStatus
      = .idle ∧
    (handleStartAnalysis
        { analysisStatus := .success, taskId := none,
          analysisResultUrl := some "http://localhost:5001/old.html",
          htmlReportContent := some "<h1>old</h1>",
          statusMessage := "分析成功完成，报告内容已加载！",
          errorMessage := some "旧错误", polling := false } "" (.ok "t9")).1.htmlReportContent
      = none ∧
    (handleStartAnalysis
        { analysisStatus := .success, taskId := none,
          analysisResultUrl := some "http://localhost:5001/old.html",
          htmlReportContent := some "<h1>old</h1>",
          statusMessage := "分析成功完成，报告内容已加载！",
          errorMessage := some "旧错误", polling := false } "" (.ok "t9")).1.analysisResultUrl
      = none ∧
    (handleStartAnalysis
        { analysisStatus := .success, taskId := none,
          analysisResultUrl := some "http://localhost:5001/old.html",
          htmlReportContent := some "<h1>old</h1>",
          statusMessage := "分析成功完成，报告内容已加载！",
          errorMessage := some "旧错误", polling := false } "" (.ok "t9")).1.errorMessage
      = some "报告生成需求不能为空。" ∧
    (handleStartAnalysis
        { analysisStatus := .success, taskId := none,
          analysisResultUrl := some "http://localhost:5001/old.html",
          htmlReportContent := some "<h1>old</h1>",
          statusMessage := "分析成功完成，报告内容已加载！",
          errorMessage := some "旧错误", polling := false } "" (.ok "t9")).2 = [] :=
  claim10_nonatomic_reject
    { analysisStatus := .success, taskId := none,
      analysisResultUrl := some "http://localhost:5001/old.html",
      htmlReportContent := some "<h1>old</h1>",
      statusMessage := "分析成功完成，报告内容已加载！",
      errorMessage := some "旧错误", polling := false } "" (.ok "t9") (by decide)

/-! ### C7 — streaming accumulation into one placeholder entry -/

theorem map_update_fresh (botId t : String) (P : List ChatMessage)
    (h : ∀ m ∈ P, m.id ≠ botId) :
    P.map (fun m => if m.id == botId then { m with text := t } else m) = P := by
  induction P with
  | nil => rfl
  | cons m P ih =>
    have hm : m.id ≠ botId := h m (by simp)
    have ih2 := ih (fun x hx => h x (by simp [hx]))
    rw [List.map_cons, ih2]
    simp [hm]

theorem streamLoop_fresh (botId sender : String) (P : List ChatMessage)
    (hfresh : ∀ m ∈ P, m.id ≠ botId) (acc : String) (chunks : List String) :
    streamLoop botId (P ++ [⟨botId, sender, acc⟩]) acc chunks
      = (P ++ [⟨botId, sender, acc ++ concatAll chunks⟩], acc ++ concatAll chunks) := by
  induction chunks generalizing acc with
  | nil => simp [streamLoop, concatAll]
  | cons c cs ih =>
    have hfold : streamLoop botId (P ++ [⟨botId, sender, acc⟩]) acc (c :: cs)
        = List.foldl (applyChunk botId)
            (applyChunk botId (P ++ [⟨botId, sender, acc⟩], acc) c) cs := rfl
    by_cases hc : c = ""
    · subst hc
      rw [hfold]
      have happ : applyChunk botId (P ++ [⟨botId, sender, acc⟩], acc) ""
          = (P ++ [⟨botId, sender, acc⟩], acc) := by
        simp [applyChunk]
      rw [happ]
      simpa [streamLoop, concatAll] using ih acc
    · rw [hfold]
      have hcb : (c == "") = false := beq_eq_false_iff_ne.mpr hc
      have hmap : (P ++ [(⟨botId, sender, acc⟩ : ChatMessage)]).map
            (fun m => if m.id == botId then { m with text := acc ++ c } else m)
          = P ++ [⟨botId, sender, acc ++ c⟩] := by
        rw [List.map_append, map_update_fresh botId (acc ++ c) P hfresh]
        simp
      have happ : applyChunk botId (P ++ [⟨botId, sender, acc⟩], acc) c
          = (P ++ [⟨botId, sender, acc ++ c⟩], acc ++ c) := by
        unfold applyChunk
        rw [hcb]
        exact congrArg₂ Prod.mk hmap rfl
      rw [happ]
      simpa [streamLoop, concatAll, String.append_assoc] using ih (acc ++ c)

/-- C7: for every chat turn whose stream delivers chunks with text
deltas `c1..cN`, the final transcript equals the prior transcript plus
exactly one user entry and exactly one bot entry, and that single bot
entry's text is the concatenation `c1 ++ ... ++ cN` (the placeholder
is updated in place, never duplicated per chunk). -/
theorem claim7_stream_concat (st : ChatState) (now : String) (chunks : List String)
    (hne : ¬ jsTrim st.userInput = "")
    (hfresh : ∀ m ∈ st.chatMessages, m.id ≠ "bot-" ++ now) :
    (handleSendMessage st now (.ok chunks)).1.chatMessages
      = st.chatMessages ++ [⟨"user-" ++ now, "user", st.userInput⟩,
                            ⟨"bot-" ++ now, "bot", concatAll chunks⟩] := by
  have huid : ("user-" ++ now : String) ≠ "bot-" ++ now :=
    string_ne_of_head_append "user-" "bot-" 'u' 'b'
      ("ser-" : String).data ("ot-" : String).data (by decide) (by decide)
      (by decide) now now
  have hfresh2 : ∀ m ∈ st.chatMessages
      ++ [(⟨"user-" ++ now, "user", st.userInput⟩ : ChatMessage)],
      m.id ≠ "bot-" ++ now := by
    intro m hm
    rcases List.mem_append.1 hm with hmem | hmem
    · exact hfresh m hmem
    · have hmu : m = (⟨"user-" ++ now, "user", st.userInput⟩ : ChatMessage) := by
        simpa using hmem
      subst hmu
      exact huid
  have hb : (jsTrim st.userInput == "") = false := beq_eq_false_iff_ne.mpr hne
  have hloop := streamLoop_fresh ("bot-" ++ now) "bot"
    (st.chatMessages ++ [⟨"user-" ++ now, "user", st.userInput⟩]) hfresh2 ""
    chunks
  have hmain : (handleSendMessage st now (.ok chunks)).1.chatMessages
      = (streamLoop ("bot-" ++ now)
          ((st.chatMessages ++ [⟨"user-" ++ now, "user", st.userInput⟩])
            ++ [⟨"bot-" ++ now, "bot", ""⟩]) "" chunks).1 := by
    unfold handleSendMessage
    rw [hb]
    rfl
  rw [hmain, hloop]
  simp

/-- Witness for C7: two chunks `"He"`, `"llo"` accumulate into a
single bot entry with text `"Hello"`. -/
theorem claim7_stream_concat_witness :
    (handleSendMessage
        { chatMessages := [], userInput := "你好", statusMessage := "",
          errorMessage := none, htmlReportContent := some "<h1>OK</h1>",
          analysisResultUrl := none } "1718" (.ok ["He", "llo"])).1.chatMessages
      = [] ++ [⟨"user-" ++ "1718", "user", "你好"⟩,
               ⟨"bot-" ++ "1718", "bot", concatAll ["He", "llo"]⟩] :=
  claim7_stream_concat
    { chatMessages := [], userInput := "你好", statusMessage := "",
      errorMessage := none, htmlReportContent := some "<h1>OK</h1>",
      analysisResultUrl := none } "1718" ["He", "llo"] (by decide) (by simp)

/-! ### C8 — six-message history window -/

/-- C8: the single request issued for a chat turn carries the optional
system context, then the history window, then the new user turn; the
history window is drawn from at most the last six prior transcript
entries whose text is non-empty after trimming — a suffix of the
filtered prior transcript, which is itself an order-preserving
sublist of the prior transcript. -/
theorem claim8_history_window (st : ChatState) (now : String)
    (oc : ChatStreamOutcome) (hne : ¬ jsTrim st.userInput = "") :
    (handleSendMessage st now oc).2
      = [⟨"deepseek-chat",
          systemMessages st.htmlReportContent st.analysisResultUrl
            ++ (historySource st.chatMessages).filterMap toApiHistory
            ++ [⟨.user, st.userInput⟩]⟩] ∧
    (historySource st.chatMessages).length ≤ 6 ∧
    historySource st.chatMessages
      <:+ st.chatMessages.filter (fun m => !(jsTrim m.text == "")) ∧
    List.Sublist (st.chatMessages.filter (fun m => !(jsTrim m.text == ""))) st.chatMessages ∧
    (∀ m ∈ historySource st.chatMessages, ¬ jsTrim m.text = "") := by
  have hb : (jsTrim st.userInput == "") = false := beq_eq_false_iff_ne.mpr hne
  refine ⟨?_, ?_, ?_, ?_, ?_⟩
  · cases oc with
    | ok chunks =>
      unfold handleSendMessage
      rw [hb]
      rfl
    | error consumed emsg =>
      unfold handleSendMessage
      rw [hb]
      rfl
  · unfold historySource sliceLast
    rw [List.length_drop]
    omega
  · exact List.drop_suffix _ _
  · exact List.filter_sublist _
  · intro m hm
    have h1 : m ∈ st.chatMessages.filter (fun m => !(jsTrim m.text == "")) :=
      ((List.drop_suffix _ _).sublist).subset hm
    have h2 := List.of_mem_filter h1
    simpa using h2

/-- Witness for C8: eight prior messages; the request's history part
consists of the last six. -/
theorem claim8_history_window_witness :
    (handleSendMessage demoChatState "99" (.ok [])).2
      = [⟨"deepseek-chat",
          systemMessages demoChatState.htmlReportContent demoChatState.analysisResultUrl
            ++ (historySource demoChatState.chatMessages).filterMap toApiHistory
            ++ [⟨.user, demoChatState.userInput⟩]⟩] ∧
    (historySource demoChatState.chatMessages).length ≤ 6 ∧
    historySource demoChatState.chatMessages
      <:+ demoChatState.chatMessages.filter (fun m => !(jsTrim m.text == "")) ∧
    List.Sublist (demoChatState.chatMessages.filter (fun m => !(jsTrim m.text == "")))
      demoChatState.chatMessages := by
  have h := claim8_history_window demoChatState "99" (.ok []) (by decide)
  exact ⟨h.1, h.2.1, h.2.2.1, h.2.2.2.1⟩

/-! ### C9 — id uniqueness within a session -/

/-- C9 (amended): the ids appended during a session are pairwise
distinct *provided* every turn observes a distinct clock rendering;
within one turn the user and bot ids always differ (distinct
prefixes), but two turns sharing one millisecond timestamp collide. -/
theorem claim9_session_ids_nodup (nows : List String) (h : nows.Nodup) :
    (sessionIds nows).Nodup := by
  induction nows with
  | nil => simp [sessionIds]
  | cons t rest ih =>
    have hnotin : t ∉ rest := (List.nodup_cons.mp h).1
    have hids := ih (List.nodup_cons.mp h).2
    have hsess : sessionIds (t :: rest)
        = ("user-" ++ t) :: ("bot-" ++ t) :: sessionIds rest := rfl
    have huser_bot : ("user-" ++ t : String) ≠ "bot-" ++ t :=
      string_ne_of_head_append "user-" "bot-" 'u' 'b'
        ("ser-" : String).data ("ot-" : String).data (by decide) (by decide)
        (by decide) t t
    have huser_notin : ("user-" ++ t : String) ∉ sessionIds rest := by
      intro hmem
      obtain ⟨t2, ht2, hmem2⟩ := List.mem_flatMap.mp hmem
      simp [turnIds] at hmem2
      rcases hmem2 with h2 | h2
      · exact hnotin (by rw [string_append_left_cancel h2]; exact ht2)
      · exact string_ne_of_head_append "user-" "bot-" 'u' 'b'
          ("ser-" : String).data ("ot-" : String).data (by decide) (by decide)
          (by decide) t t2 h2
    have hbot_notin : ("bot-" ++ t : String) ∉ sessionIds rest := by
      intro hmem
      obtain ⟨t2, ht2, hmem2⟩ := List.mem_flatMap.mp hmem
      simp [turnIds] at hmem2
      rcases hmem2 with h2 | h2
      · exact string_ne_of_head_append "bot-" "user-" 'b' 'u'
          ("ot-" : String).data ("ser-" : String).data (by decide) (by decide)
          (by decide) t t2 h2
      · exact hnotin (by rw [string_append_left_cancel h2]; exact ht2)
    rw [hsess]
    refine List.nodup_cons.mpr ⟨?_, List.nodup_cons.mpr ⟨hbot_notin, hids⟩⟩
    simp only [List.mem_cons]
    rintro (h2 | h2)
    · exact huser_bot h2
    · exact huser_notin h2

/-- C9 counterexample: two turns observing the same `Date.now()`
rendering (`"100"`) produce colliding `user-100` (and `bot-100`) ids,
so ids are not unique within the session as claimed. -/
theorem claim9_same_timestamp_counterexample :
    ¬ (sessionIds ["100", "100"]).Nodup := by decide

/-- Witness for C9: two turns with distinct clock renderings yield
four pairwise-distinct ids. -/
theorem claim9_session_ids_nodup_witness :
    (sessionIds ["100", "200"]).Nodup :=
  claim9_session_ids_nodup ["100", "200"] (by decide)

end ChatbotPage
